import Mathlib

/-!
Shallow embedding of the tile-windowed geometry pipeline of the mapchete
repository (src/mapchete/io/vector.py and src/mapchete/io_utils.py) and
proofs about it.

External collaborators (the shapely geometry engine, the fiona/rasterio
dataset drivers and the tilematrix pyramid service) are not part of the
repository; they are modelled either as explicit parameters (a
`GeomEngine` record of the primitives the source composes) or, where a
concrete definition is needed, by a definition whose doc comment starts
with `Modelled from the spec:`.
-/

namespace Mapchete

/-! ## Geometry data model

Shapely geometry values as consumed by `clean_geometry_type`: a tagged
variant over the seven GeoJSON types.  Coordinate payloads are opaque
(`Nat`), multipart values and collections carry their member list. -/

/-- The three single-part base families: Point, LineString, Polygon. -/
inductive GeomBase where
  | point
  | line
  | poly
deriving DecidableEq, Repr

/-- The `geom_type` tag of a shapely geometry. -/
inductive GType where
  | single (b : GeomBase)
  | multi (b : GeomBase)
  | collection
deriving DecidableEq, Repr

/-- Shapely geometry values. Coordinate data is opaque (a `Nat` payload);
multipart geometries and GeometryCollections carry their members. -/
inductive Geometry where
  | point (d : Nat)
  | lineString (d : Nat)
  | polygon (d : Nat)
  | multiPoint (parts : List Geometry)
  | multiLineString (parts : List Geometry)
  | multiPolygon (parts : List Geometry)
  | geometryCollection (members : List Geometry)
deriving Repr

/-- The `geometry.geom_type` accessor of the shapely engine. -/
def Geometry.geom_type : Geometry → GType
  | .point _ => .single .point
  | .lineString _ => .single .line
  | .polygon _ => .single .poly
  | .multiPoint _ => .multi .point
  | .multiLineString _ => .multi .line
  | .multiPolygon _ => .multi .poly
  | .geometryCollection _ => .collection

/-- The `multipart_geoms` dictionary of `clean_geometry_type`
(src/mapchete/io/vector.py lines 311-318): maps each of the six supported
type names to its multipart class, identified here by the base family.
`GeometryCollection` is not a key (`none`). -/
def multipart_geoms : GType → Option GeomBase
  | .single b => some b
  | .multi b => some b
  | .collection => none

/-- The multipart class of a family applied to a list of parts
(`MultiPoint`, `MultiLineString`, `MultiPolygon` constructor calls). -/
def mkMulti (fam : GeomBase) (parts : List Geometry) : Geometry :=
  match fam with
  | .point => .multiPoint parts
  | .line => .multiLineString parts
  | .poly => .multiPolygon parts

/-- Errors raised (as Python exceptions) by `clean_geometry_type`. -/
inductive CleanErr where
  | unsupportedType
  | constructionFailed
deriving DecidableEq, Repr

/-- Modelled from the spec: the external geometry engine's "construction of
multipart values from parts" (spec section 6), as invoked by the
GeometryCollection branch of `clean_geometry_type`.  The constructor takes
parts, i.e. geometry values of the family's single-part type; an element
that is not such a part — in particular the `None` produced by a member
that yielded no match — is not a part, so its presence makes the
construction fail. -/
def mkMultipart (fam : GeomBase) (results : List (Option Geometry)) :
    Except CleanErr Geometry :=
  if results.all (fun r =>
      match r with
      | some g => g.geom_type = .single fam
      | none => false) then
    .ok (mkMulti fam (results.filterMap id))
  else
    .error .constructionFailed

mutual

/-- Embeds `clean_geometry_type(geometry, target_type, allow_multipart)`
(src/mapchete/io/vector.py lines 292-337).  Python `None` is `.ok none`;
Python exceptions are `.error`. -/
def clean_geometry_type (geometry : Geometry) (target_type : GType)
    (allow_multipart : Bool) : Except CleanErr (Option Geometry) :=
  match multipart_geoms target_type with
  | none => .error .unsupportedType
  | some fam =>
    if geometry.geom_type = target_type then
      .ok (some geometry)
    else
      match geometry with
      | .geometryCollection members =>
        match cleanMembers members target_type allow_multipart with
        | .error e => .error e
        | .ok results =>
          match mkMultipart fam results with
          | .error e => .error e
          | .ok built => .ok (some built)
      | g =>
        if allow_multipart ∧ g.geom_type = .multi fam then
          .ok (some g)
        else if multipart_geoms g.geom_type = some fam then
          .ok (some g)
        else
          .ok none

/-- The list comprehension inside the GeometryCollection branch:
normalizes every member in order, propagating the first exception. -/
def cleanMembers (gs : List Geometry) (target_type : GType)
    (allow_multipart : Bool) : Except CleanErr (List (Option Geometry)) :=
  match gs with
  | [] => .ok []
  | g :: rest =>
    match clean_geometry_type g target_type allow_multipart with
    | .error e => .error e
    | .ok r =>
      match cleanMembers rest target_type allow_multipart with
      | .error e => .error e
      | .ok rs => .ok (r :: rs)

end

/-! ## Lemmas about the geometry type normalizer -/

theorem mkMulti_geom_type (fam : GeomBase) (parts : List Geometry) :
    (mkMulti fam parts).geom_type = .multi fam := by
  cases fam <;> rfl

theorem mkMultipart_ok_geom_type {fam : GeomBase} {rs : List (Option Geometry)}
    {b : Geometry} (h : mkMultipart fam rs = .ok b) : b.geom_type = .multi fam := by
  unfold mkMultipart at h
  split at h
  · injection h with h'
    subst h'
    exact mkMulti_geom_type fam _
  · exact Except.noConfusion h

theorem multipart_geoms_eq_some {t : GType} {f : GeomBase}
    (h : multipart_geoms t = some f) : t = .single f ∨ t = .multi f := by
  cases t with
  | single b => simp only [multipart_geoms, Option.some.injEq] at h; exact Or.inl (by rw [h])
  | multi b => simp only [multipart_geoms, Option.some.injEq] at h; exact Or.inr (by rw [h])
  | collection => exact Option.noConfusion h

/-- C2: for every supported target type and every input geometry, whenever
`clean_geometry_type` returns a geometry (rather than `None` or an
exception), that geometry's type is either exactly the target type or a
single-part/multipart member of the target type's family — never a
geometry of any third type. -/
theorem clean_geometry_type_no_third_type
    (g : Geometry) (target : GType) (allow : Bool) (out : Geometry)
    (h : clean_geometry_type g target allow = .ok (some out)) :
    ∃ fam, multipart_geoms target = some fam ∧
      (out.geom_type = target ∨ out.geom_type = .single fam ∨
        out.geom_type = .multi fam) := by
  unfold clean_geometry_type at h
  split at h
  · exact Except.noConfusion h
  · rename_i fam heq
    refine ⟨fam, heq, ?_⟩
    split at h
    · rename_i hgt
      injection h with h1
      injection h1 with h2
      subst h2
      exact Or.inl hgt
    · rename_i hgt
      split at h
      · split at h
        · exact Except.noConfusion h
        · split at h
          · exact Except.noConfusion h
          · rename_i results hcm built hmk
            injection h with h1
            injection h1 with h2
            subst h2
            exact Or.inr (Or.inr (mkMultipart_ok_geom_type hmk))
      · split at h
        · rename_i hmu
          injection h with h1
          injection h1 with h2
          subst h2
          exact Or.inr (Or.inr hmu.2)
        · split at h
          · rename_i hfam
            injection h with h1
            injection h1 with h2
            subst h2
            exact Or.inr (multipart_geoms_eq_some hfam)
          · injection h with h1
            exact Option.noConfusion h1

/-- Witness for C2: `clean_geometry_type` applied to a MultiPolygon with
Polygon target returns a geometry of the Polygon family. -/
theorem clean_geometry_type_no_third_type_witness :
    ∃ fam, multipart_geoms (GType.single .poly) = some fam ∧
      ((Geometry.multiPolygon [.polygon 0]).geom_type = .single .poly ∨
        (Geometry.multiPolygon [.polygon 0]).geom_type = .single fam ∨
        (Geometry.multiPolygon [.polygon 0]).geom_type = .multi fam) :=
  clean_geometry_type_no_third_type (.multiPolygon [.polygon 0])
    (.single .poly) true (.multiPolygon [.polygon 0]) rfl

/-- C3: evaluation of `clean_geometry_type` at a mixed GeometryCollection.
The recursive results — including the `None` of the non-matching Point
member — are all passed to the multipart constructor; the `None` is not
discarded, so with the spec's parts-only constructor the call fails
instead of returning the multipart assembled from the surviving members. -/
theorem clean_geometry_type_collection_keeps_nomatch :
    clean_geometry_type (.geometryCollection [.polygon 0, .point 1])
        (.single .poly) true = .error .constructionFailed ∧
      clean_geometry_type (.geometryCollection [.polygon 0, .point 1])
        (.single .poly) true ≠ .ok (some (.multiPolygon [.polygon 0])) :=
  ⟨rfl, fun hcontra =>
    Except.noConfusion (Eq.trans
      (show (Except.error CleanErr.constructionFailed :
          Except CleanErr (Option Geometry))
        = clean_geometry_type (.geometryCollection [.polygon 0, .point 1])
            (.single .poly) true from rfl)
      hcontra)⟩

/-! ## CRS model, geometry engine and the reprojection functions -/

/-- A coordinate reference system as handled by `_validated_crs`: either a
resolved EPSG code or a CRS without an EPSG code. -/
inductive CRS where
  | epsg (code : Nat)
  | noEpsg (tag : Nat)
deriving DecidableEq, Repr

/-- The `crs.is_epsg_code` test of rasterio. -/
def CRS.is_epsg_code : CRS → Bool
  | .epsg _ => true
  | .noEpsg _ => false

/-- An axis-aligned bounding rectangle (left, bottom, right, top). -/
structure Box where
  left : ℚ
  bottom : ℚ
  right : ℚ
  top : ℚ
deriving DecidableEq, Repr

/-- The `CRS_BOUNDS` table (src/mapchete/io/vector.py lines 22-29):
valid-bounds rectangles for the known destination CRSes, keyed by the
`init` identifier. -/
def CRS_BOUNDS (c : CRS) : Option Box :=
  match c with
  | .epsg 4326 => some ⟨-180, -90, 180, 90⟩
  | .epsg 3857 => some ⟨-180, -85.0511, 180, 85.0511⟩
  | .epsg 3035 => some ⟨-10.67, 34.5, 31.55, 71.05⟩
  | _ => none

/-- The external shapely/fiona primitives that the reprojection and reader
code composes (spec section 6): validity test, emptiness test, zero-width
buffer repair, intersection, `fiona.transform.transform_geom`, containment
test and rectangle construction.  The repository code is parametric in
these, so the theorems quantify over the engine. -/
structure GeomEngine where
  isValid : Geometry → Bool
  isEmpty : Geometry → Bool
  buffer0 : Geometry → Geometry
  intersection : Geometry → Geometry → Geometry
  transform : CRS → CRS → Geometry → Geometry
  within : Geometry → Geometry → Bool
  boxGeom : Box → Geometry

/-- Exceptions raised by the reprojection functions: shapely's
`TopologicalError` and the `RuntimeError` for a geometry outside the
target CRS bounds. -/
inductive ReprojErr where
  | topology
  | outsideBounds
deriving DecidableEq, Repr

/-- Embeds `_reproject_geom(geometry, src_crs, dst_crs, validity_check)`
(src/mapchete/io/vector.py lines 93-101).  Note the Python condition
`validity_check and not out_geom.is_valid or out_geom.is_empty`, which by
operator precedence is `(validity_check and not is_valid) or is_empty`. -/
def reproject_geom (E : GeomEngine) (geometry : Geometry)
    (src_crs dst_crs : CRS) (validity_check : Bool) : Except ReprojErr Geometry :=
  if E.isEmpty geometry || src_crs == dst_crs then
    .ok (E.buffer0 geometry)
  else
    let out_geom := E.buffer0 (E.transform src_crs dst_crs geometry)
    if (validity_check && !(E.isValid out_geom)) || E.isEmpty out_geom then
      .error .topology
    else
      .ok out_geom

/-- Embeds `reproject_geometry(geometry, src_crs, dst_crs, error_on_clip,
validity_check)` (src/mapchete/io/vector.py lines 32-91).  The final
branch of the source calls `_reproject_geom` without forwarding
`validity_check`, so it runs with the default `True`. -/
def reproject_geometry (E : GeomEngine) (geometry : Geometry)
    (src_crs dst_crs : CRS) (error_on_clip validity_check : Bool) :
    Except ReprojErr Geometry :=
  if src_crs == dst_crs then
    .ok (E.buffer0 geometry)
  else
    match CRS_BOUNDS dst_crs with
    | some crs_bounds =>
      if dst_crs.is_epsg_code && !(dst_crs == .epsg 4326) then
        let wgs84 : CRS := .epsg 4326
        let crs_bbox := E.boxGeom crs_bounds
        match reproject_geom E geometry src_crs wgs84 validity_check with
        | .error e => .error e
        | .ok geometry_4326 =>
          if error_on_clip && !(E.within geometry_4326 crs_bbox) then
            .error .outsideBounds
          else
            reproject_geom E (E.intersection crs_bbox geometry_4326) wgs84
              dst_crs validity_check
      else
        reproject_geom E geometry src_crs dst_crs true
    | none => reproject_geom E geometry src_crs dst_crs true

/-- A concrete engine used to evaluate the code on concrete inputs: every
geometry is valid, only `polygon 0` is empty, repair is the identity,
intersection returns its second argument and every transform lands on the
empty `polygon 0`. -/
def testEngine : GeomEngine where
  isValid _ := true
  isEmpty g := match g with | .polygon 0 => true | _ => false
  buffer0 g := g
  intersection _ y := y
  transform _ _ _ := .polygon 0
  within _ _ := true
  boxGeom _ := .polygon 7

/-- C4 counterexample: a reprojection step between distinct CRSs with
`validity_check` UNSET still fails with a topology error when the
transformed geometry comes out empty, contradicting "no topology error is
raised when check_validity is not set". -/
theorem reproject_geom_fails_without_validity_check :
    reproject_geom testEngine (.polygon 1) (CRS.epsg 4326) (CRS.epsg 3857)
      false = .error .topology :=
  rfl

/-- C4 (amended): a reprojection step between distinct CRSs on a nonempty
geometry fails with a topology error iff (its validity_check argument is
set and the repaired transform result is invalid) or that result is
empty — an empty result fails regardless of the flag. -/
theorem reproject_geom_topology_iff (E : GeomEngine) (g : Geometry)
    (src dst : CRS) (vc : Bool) (hne : src ≠ dst)
    (hemp : E.isEmpty g = false) :
    reproject_geom E g src dst vc = .error .topology ↔
      ((vc = true ∧ E.isValid (E.buffer0 (E.transform src dst g)) = false) ∨
        E.isEmpty (E.buffer0 (E.transform src dst g)) = true) := by
  unfold reproject_geom
  have hbeq : (src == dst) = false := by
    simp only [beq_eq_false_iff_ne, ne_eq]
    exact hne
  rw [hemp, hbeq]
  simp only [Bool.or_self, Bool.false_eq_true, if_false]
  split
  · rename_i hcond
    simp only [Bool.or_eq_true, Bool.and_eq_true, Bool.not_eq_true'] at hcond
    constructor
    · intro _
      exact hcond
    · intro _
      rfl
  · rename_i hcond
    simp only [Bool.or_eq_true, Bool.and_eq_true, Bool.not_eq_true'] at hcond
    constructor
    · intro hcontra
      exact Except.noConfusion hcontra
    · intro hd
      exact absurd hd hcond

/-- Witness for C4's amended theorem: with the flag set, the step on a
nonempty polygon whose transform is empty fails with a topology error. -/
theorem reproject_geom_topology_iff_witness :
    reproject_geom testEngine (.polygon 1) (CRS.epsg 4326) (CRS.epsg 3857)
      true = .error .topology :=
  (reproject_geom_topology_iff testEngine (.polygon 1) (CRS.epsg 4326)
    (CRS.epsg 3857) true (by decide) rfl).mpr (Or.inr rfl)

/-! ## The vector window reader's per-feature pipeline -/

/-- A GeoJSON-like feature: a geometry plus an opaque properties mapping. -/
structure Feature where
  geometry : Geometry
  properties : Nat
deriving Repr

/-- The `warnings.warn` messages issued per feature by
`_get_reprojected_features`. -/
inductive FWarn where
  | brokenGeometry
  | typeChanged
  | reprojectionFailed
deriving DecidableEq, Repr

/-- Exceptions that escape the generator body (they abort the stream). -/
inductive FeatErr where
  | cleanFailed (e : CleanErr)
  | assertionFailed
  | uncaught (e : ReprojErr)
deriving DecidableEq, Repr

/-- The loop body of `_get_reprojected_features`
(src/mapchete/io/vector.py lines 258-289) for one candidate feature:
repair-or-skip, clip to the filter box, normalize against the feature's
original type, then reproject to the tile CRS if the CRSs differ.  The
result is the warnings issued and the feature yielded (if any).  Note the
`except TopologicalError` handler warns "feature omitted" but has no
`continue`, so control falls through to the `yield`. -/
def process_feature (E : GeomEngine) (vector_crs dst_crs : CRS)
    (validity_check : Bool) (dst_bbox : Geometry) (f : Feature) :
    Except FeatErr (List FWarn × Option Feature) :=
  let fg := f.geometry
  let repaired : Option Geometry :=
    if E.isValid fg then some fg
    else if E.isValid (E.buffer0 fg) then some (E.buffer0 fg) else none
  match repaired with
  | none => .ok ([.brokenGeometry], none)
  | some feature_geom =>
    match clean_geometry_type (E.intersection feature_geom dst_bbox)
        feature_geom.geom_type true with
    | .error e => .error (.cleanFailed e)
    | .ok cleaned =>
      match cleaned with
      | none => .ok ([.typeChanged], none)
      | some geom =>
        if E.isEmpty geom then
          .ok ([.typeChanged], none)
        else if vector_crs == dst_crs && validity_check then
          if E.isValid geom then .ok ([], some ⟨geom, f.properties⟩)
          else .error .assertionFailed
        else
          match reproject_geometry E geom vector_crs dst_crs false
              validity_check with
          | .ok geom2 => .ok ([], some ⟨geom2, f.properties⟩)
          | .error .topology =>
            .ok ([.reprojectionFailed], some ⟨geom, f.properties⟩)
          | .error e => .error (.uncaught e)

/-- The feature stream of `_get_reprojected_features` over the bbox-filtered
candidates: per-feature warnings are absorbed and the stream continues;
only escaped exceptions abort it. -/
def get_reprojected_features (E : GeomEngine) (vector_crs dst_crs : CRS)
    (validity_check : Bool) (dst_bbox : Geometry) :
    List Feature → Except FeatErr (List FWarn × List Feature)
  | [] => .ok ([], [])
  | f :: rest =>
    match process_feature E vector_crs dst_crs validity_check dst_bbox f with
    | .error e => .error e
    | .ok (w, o) =>
      match get_reprojected_features E vector_crs dst_crs validity_check
          dst_bbox rest with
      | .error e => .error e
      | .ok (ws, fs) =>
        .ok (w ++ ws, (match o with | some feat => [feat] | none => []) ++ fs)

/-- C1: evaluation of the reader's per-feature pipeline at a feature whose
reprojection to the differing tile CRS fails with a topology error.  The
code records the "feature omitted: reprojection failed" warning but then,
lacking a `continue`, still yields the feature — with its un-reprojected
geometry (still in the source CRS) — instead of skipping it. -/
theorem process_feature_yields_after_reprojection_failure :
    process_feature testEngine (CRS.epsg 4326) (CRS.epsg 3857) true
        (.polygon 2) ⟨.polygon 1, 5⟩
      = .ok ([.reprojectionFailed], some ⟨.polygon 2, 5⟩) :=
  rfl

/-! ## The tile-edge splitter of `read_vector_window` -/

/-- The pyramid-level global extent exposed by a `TilePyramid`. -/
structure TilePyramid where
  left : ℚ
  bottom : ℚ
  right : ℚ
  top : ℚ
deriving DecidableEq, Repr

/-- A buffered tile as consumed by `read_vector_window`: its (buffered)
bounds, its pixelbuffer and its pyramid. -/
structure Tile where
  bounds : Box
  pixelbuffer : Nat
  tile_pyramid : TilePyramid
deriving DecidableEq, Repr

/-- The edge test of `read_vector_window` (src/mapchete/io/vector.py lines
169-174): the tile's bounds touch or exceed one of the pyramid's four
global boundaries. -/
def is_on_edge (tile : Tile) : Bool :=
  decide (tile.bounds.left ≤ tile.tile_pyramid.left) ||
    decide (tile.bounds.bottom ≤ tile.tile_pyramid.bottom) ||
    decide (tile.bounds.right ≥ tile.tile_pyramid.right) ||
    decide (tile.bounds.top ≥ tile.tile_pyramid.top)

/-- Modelled from the spec: tilematrix's `clip_geometry_to_srs_bounds`
with `multipart=True` (spec section 4.3), which is not part of this
repository.  It partitions a buffered extent into boxes inside the
pyramid's valid coordinate range, reassembling a horizontal overshoot on
the opposite edge (the antimeridian case) and clipping vertically. -/
def clip_geometry_to_srs_bounds (b : Box) (p : TilePyramid) : List Box :=
  let width := p.right - p.left
  let inner : Box :=
    ⟨max b.left p.left, max b.bottom p.bottom,
      min b.right p.right, min b.top p.top⟩
  let leftWrap : List Box :=
    if b.left < p.left then
      [⟨b.left + width, max b.bottom p.bottom, p.right, min b.top p.top⟩]
    else []
  let rightWrap : List Box :=
    if b.right > p.right then
      [⟨p.left, max b.bottom p.bottom, b.right - width, min b.top p.top⟩]
    else []
  leftWrap ++ [inner] ++ rightWrap

/-- The sequence of read boxes produced by `read_vector_window`
(src/mapchete/io/vector.py lines 146-190): the split path runs only when
the pixelbuffer is truthy (non-zero) and the tile is on an edge;
otherwise the single buffered extent is read. -/
def read_vector_window_boxes (tile : Tile) : List Box :=
  if tile.pixelbuffer != 0 && is_on_edge tile then
    clip_geometry_to_srs_bounds tile.bounds tile.tile_pyramid
  else
    [tile.bounds]

/-- C5: the read extent is split into several sub-boxes only when the
pixelbuffer is non-zero and the tile touches or exceeds a pyramid
boundary; with pixelbuffer 0 or an interior tile, exactly one box equal
to the tile's buffered extent is read. -/
theorem read_vector_window_boxes_spec (tile : Tile) :
    ((tile.pixelbuffer = 0 ∨ is_on_edge tile = false) →
        read_vector_window_boxes tile = [tile.bounds]) ∧
      (1 < (read_vector_window_boxes tile).length →
        tile.pixelbuffer ≠ 0 ∧ is_on_edge tile = true) := by
  unfold read_vector_window_boxes
  cases hc : (tile.pixelbuffer != 0 && is_on_edge tile) with
  | false =>
    simp only [Bool.false_eq_true, if_false]
    constructor
    · intro _
      trivial
    · intro hlen
      simp only [List.length_singleton] at hlen
      omega
  | true =>
    simp only [if_true]
    rw [Bool.and_eq_true, bne_iff_ne, ne_eq] at hc
    constructor
    · intro hno
      rcases hno with h0 | hedge
      · exact absurd h0 hc.1
      · rw [hedge] at hc
        exact absurd hc.2 (by simp)
    · intro _
      exact hc

/-- Witness for C5: a concrete interior tile with pixelbuffer 0 reads a
single box equal to its bounds. -/
theorem read_vector_window_boxes_spec_witness :
    read_vector_window_boxes ⟨⟨0, 0, 1, 1⟩, 0, ⟨0, 0, 4, 4⟩⟩
      = [(⟨0, 0, 1, 1⟩ : Box)] :=
  (read_vector_window_boxes_spec ⟨⟨0, 0, 1, 1⟩, 0, ⟨0, 0, 4, 4⟩⟩).1
    (Or.inl rfl)

/-! ## The vector window writer

Output files are modelled by their paths (`Nat`); the filesystem by the
list of existing paths. -/

/-- The fiona output schema: its declared geometry type. -/
structure OutSchema where
  geometry : GType
deriving DecidableEq, Repr

/-- The per-feature body of `write_vector_window`
(src/mapchete/io/vector.py lines 218-233): clip to the tile's bbox, keep
the clip if it already has the declared type, otherwise normalize; a
cleaning exception drops the feature with a warning, and a falsy result
(`None` or an empty geometry) is not appended. -/
def write_feature (E : GeomEngine) (out_schema : OutSchema)
    (tile_bbox : Geometry) (f : Feature) : Option Feature :=
  let clipped := E.intersection f.geometry tile_bbox
  let out_geom : Except CleanErr (Option Geometry) :=
    if clipped.geom_type = out_schema.geometry then .ok (some clipped)
    else clean_geometry_type clipped out_schema.geometry true
  match out_geom with
  | .error _ => none
  | .ok none => none
  | .ok (some g) => if E.isEmpty g then none else some ⟨g, f.properties⟩

/-- Embeds `write_vector_window(in_data, out_schema, out_tile, out_path)`
(src/mapchete/io/vector.py lines 193-242) acting on the set of existing
files: delete any pre-existing file (a missing one is ignored), return
early on empty input, and open the destination for writing only when at
least one feature survived the per-feature filtering. -/
def write_vector_window (E : GeomEngine) (in_data : List Feature)
    (out_schema : OutSchema) (tile_bbox : Geometry) (out_path : Nat)
    (fs : List Nat) : List Nat :=
  let fs1 := fs.filter (fun p => p != out_path)
  if in_data.isEmpty then fs1
  else
    let out_features := in_data.filterMap (write_feature E out_schema tile_bbox)
    if out_features.isEmpty then fs1
    else out_path :: fs1

theorem not_mem_filter_ne_self (path : Nat) (fs : List Nat) :
    path ∉ fs.filter (fun p => p != path) := by
  intro hmem
  have := List.of_mem_filter hmem
  simp at this

/-- C8: after `write_vector_window`, a file exists at the destination iff
the input was non-empty and at least one feature survived the per-feature
clip/normalize filtering; in particular a pre-existing file is removed
first (so the empty cases leave no file even if one existed), a missing
prior file is not an error, and writing an empty feature list creates no
file. -/
theorem write_vector_window_creates_file_iff (E : GeomEngine)
    (in_data : List Feature) (out_schema : OutSchema) (tile_bbox : Geometry)
    (out_path : Nat) (fs : List Nat) :
    out_path ∈ write_vector_window E in_data out_schema tile_bbox out_path fs
      ↔ (in_data ≠ [] ∧
          in_data.filterMap (write_feature E out_schema tile_bbox) ≠ []) := by
  unfold write_vector_window
  by_cases h1 : in_data.isEmpty
  · rw [if_pos h1]
    rw [List.isEmpty_iff] at h1
    constructor
    · intro hmem
      exact absurd hmem (not_mem_filter_ne_self out_path fs)
    · intro hd
      exact absurd h1 hd.1
  · rw [if_neg h1]
    rw [List.isEmpty_iff] at h1
    by_cases h2 : (in_data.filterMap (write_feature E out_schema tile_bbox)).isEmpty
    · rw [if_pos h2]
      rw [List.isEmpty_iff] at h2
      constructor
      · intro hmem
        exact absurd hmem (not_mem_filter_ne_self out_path fs)
      · intro hd
        exact absurd h2 hd.2
    · rw [if_neg h2]
      rw [List.isEmpty_iff] at h2
      constructor
      · intro _
        exact ⟨h1, h2⟩
      · intro _
        exact List.mem_cons_self out_path _

/-- Witness for C8: writing an empty feature list over a pre-existing file
leaves no file at the destination. -/
theorem write_vector_window_creates_file_iff_witness :
    3 ∉ write_vector_window testEngine [] ⟨GType.single .poly⟩
        (.polygon 2) 3 [3] :=
  fun hmem =>
    ((write_vector_window_creates_file_iff testEngine [] ⟨GType.single .poly⟩
        (.polygon 2) 3 [3]).mp hmem).1 rfl

/-! ## The virtual composite tile (io_utils)

Underlying tiles, their stored paths and the destination tile are
identified by `Nat`; the covering-tiles query of the external pyramid
service and the per-tile window reader are parameters. -/

/-- The state a `VectorProcessTile` (or `NumpyTile`) reads from: the
covering tiles returned by `tiles_from_bbox` (wrapped through
`process.tile`, in query order), the storage existence predicate, the
per-tile stored path, the composite's pixelbuffer and the process tile
whose coordinates match the destination (`process.tile(self.tile)`). -/
structure ProcCfg where
  coveringTiles : List Nat
  tileExists : Nat → Bool
  tilePath : Nat → Nat
  pixelbuffer : Nat
  baseTile : Nat

/-- The generator `chain.from_iterable(read_vector_window(tile.path, tile,
pixelbuffer) for tile in src_tiles if tile.exists())` of
`VectorProcessTile.read` (src/mapchete/io_utils.py lines 99-107).  `rdw`
is the external `read_vector_window(path, window_tile, pixelbuffer)`. -/
def chain_reads {α : Type} (cfg : ProcCfg) (rdw : Nat → Nat → Nat → List α) :
    List Nat → List α
  | [] => []
  | t :: rest =>
    (if cfg.tileExists t then rdw (cfg.tilePath t) t cfg.pixelbuffer else [])
      ++ chain_reads cfg rdw rest

/-- Embeds `VectorProcessTile.read(no_neighbors)` (src/mapchete/io_utils.py lines
72-107). -/
def vector_process_tile_read {α : Type} (cfg : ProcCfg)
    (rdw : Nat → Nat → Nat → List α) (no_neighbors : Bool) : List α :=
  if no_neighbors then
    if cfg.tileExists cfg.baseTile then
      rdw (cfg.tilePath cfg.baseTile) cfg.baseTile cfg.pixelbuffer
    else []
  else
    chain_reads cfg rdw cfg.coveringTiles

theorem chain_reads_eq {α : Type} (cfg : ProcCfg)
    (rdw : Nat → Nat → Nat → List α) (l : List Nat) :
    chain_reads cfg rdw l
      = ((l.filter cfg.tileExists).map
          (fun t => rdw (cfg.tilePath t) t cfg.pixelbuffer)).flatten := by
  induction l with
  | nil => rfl
  | cons t rest ih =>
    by_cases ht : cfg.tileExists t
    · simp only [chain_reads, List.filter_cons, ht, if_pos, List.map_cons,
        List.flatten_cons, ih]
    · simp only [chain_reads, List.filter_cons, ht, List.map_cons, ih]
      simp [ht]

/-- A concrete composite configuration: one covering tile (id 1, existing)
that differs from the destination's matching tile (id 0). -/
def cfgC : ProcCfg := ⟨[1], fun _ => true, fun p => p, 0, 0⟩

/-- A window reader that reports the window-tile argument it was given. -/
def rdwC : Nat → Nat → Nat → List Nat := fun _ t _ => [t]

/-- C6 counterexample: the composite read does NOT use the destination
tile as the target window of each per-tile window read — reading `cfgC`
yields the covering tile's id, not the destination's, so the claim's
description (window read of each existing covering tile with the
destination tile as target window) mispredicts the result. -/
theorem vector_process_tile_read_window_not_destination :
    vector_process_tile_read cfgC rdwC false ≠
      ((cfgC.coveringTiles.filter cfgC.tileExists).map
        (fun t => rdwC (cfgC.tilePath t) cfgC.baseTile cfgC.pixelbuffer)).flatten := by
  decide

/-- C6 (amended): the composite read invokes the window read once per
existing covering tile, with that covering tile ITSELF (buffered by the
composite's pixelbuffer) as the target window, and concatenates the
results in covering-tile order; covering tiles that do not exist
contribute nothing and cause no error; in no-neighbors mode only the tile
whose coordinates match the destination is read, and the empty sequence
is returned when it does not exist. -/
theorem vector_process_tile_read_spec {α : Type} (cfg : ProcCfg)
    (rdw : Nat → Nat → Nat → List α) :
    vector_process_tile_read cfg rdw false
        = ((cfg.coveringTiles.filter cfg.tileExists).map
            (fun t => rdw (cfg.tilePath t) t cfg.pixelbuffer)).flatten
      ∧ vector_process_tile_read cfg rdw true
        = (if cfg.tileExists cfg.baseTile then
            rdw (cfg.tilePath cfg.baseTile) cfg.baseTile cfg.pixelbuffer
          else []) :=
  ⟨chain_reads_eq cfg rdw cfg.coveringTiles, rfl⟩

/-- Embeds `VectorProcessTile.is_empty` (src/mapchete/io_utils.py lines 109-131):
collect the stored paths of the covering tiles that exist and report
emptiness of that list; no data is read (the definition does not even
take a reader). -/
def vector_process_tile_is_empty (cfg : ProcCfg) : Bool :=
  let tile_paths := (cfg.coveringTiles.filter cfg.tileExists).map cfg.tilePath
  if tile_paths.isEmpty then true else false

/-- The state a `VectorFileTile` emptiness check reads from: the source
file's bounding box (`file_bbox`), the destination tile's buffered bbox,
and the features the fiona bbox filter returns for the tile's bounds. -/
structure FileCfg where
  srcBbox : Box
  tileBbox : Box
  filtered : List Nat

/-- Rectangle intersection test of the shapely engine, concretely on
axis-aligned boxes (touching counts as intersecting). -/
def boxIntersects (a b : Box) : Bool :=
  decide (a.left ≤ b.right) && decide (b.left ≤ a.right) &&
    decide (a.bottom ≤ b.top) && decide (b.bottom ≤ a.top)

/-- Embeds `VectorFileTile.is_empty` (src/mapchete/io_utils.py lines 192-219):
true when the buffered tile bbox misses the source bbox, else true iff
the first `next()` on the filtered iterator raises `StopIteration`. -/
def vector_file_tile_is_empty (fcfg : FileCfg) : Bool :=
  if !(boxIntersects fcfg.tileBbox fcfg.srcBbox) then true
  else if fcfg.filtered.isEmpty then true else false

/-- C7: the composite tile's is_empty is true iff no covering tile exists
in storage, and the single-file tile's is_empty is true iff the buffered
tile extent misses the source's bounding box or the bbox filter yields
zero features. -/
theorem composite_is_empty_spec (cfg : ProcCfg) (fcfg : FileCfg) :
    (vector_process_tile_is_empty cfg = true ↔
        cfg.coveringTiles.all (fun t => !cfg.tileExists t) = true)
      ∧ (vector_file_tile_is_empty fcfg = true ↔
        (boxIntersects fcfg.tileBbox fcfg.srcBbox = false ∨
          fcfg.filtered = [])) := by
  constructor
  · unfold vector_process_tile_is_empty
    by_cases h : ((cfg.coveringTiles.filter cfg.tileExists).map
        cfg.tilePath).isEmpty = true
    · rw [if_pos h]
      rw [List.isEmpty_iff, List.map_eq_nil_iff, List.filter_eq_nil_iff] at h
      simp only [List.all_eq_true, Bool.not_eq_true']
      exact ⟨fun _ t ht => by simpa using h t ht, fun _ => trivial⟩
    · rw [if_neg h]
      rw [List.isEmpty_iff, List.map_eq_nil_iff, List.filter_eq_nil_iff] at h
      simp only [List.all_eq_true, Bool.not_eq_true']
      constructor
      · intro hcontra
        exact Bool.noConfusion hcontra
      · intro hall
        exact (h (fun t ht => by simpa using hall t ht)).elim
  · unfold vector_file_tile_is_empty
    by_cases hint : boxIntersects fcfg.tileBbox fcfg.srcBbox = true
    · rw [hint]
      simp only [Bool.not_true]
      rw [if_neg Bool.false_ne_true]
      by_cases hf : fcfg.filtered.isEmpty = true
      · rw [if_pos hf]
        rw [List.isEmpty_iff] at hf
        exact ⟨fun _ => Or.inr hf, fun _ => rfl⟩
      · rw [if_neg hf]
        rw [List.isEmpty_iff] at hf
        constructor
        · intro hcontra
          exact Bool.noConfusion hcontra
        · intro hd
          rcases hd with hd | hd
          · exact hd.symm
          · exact (hf hd).elim
    · rw [Bool.not_eq_true] at hint
      rw [hint]
      simp

/-- Witness for C7: a composite whose two covering tiles both do not
exist is empty. -/
theorem composite_is_empty_spec_witness :
    vector_process_tile_is_empty ⟨[1, 2], fun _ => false, fun p => p, 0, 0⟩
      = true :=
  (composite_is_empty_spec ⟨[1, 2], fun _ => false, fun p => p, 0, 0⟩
    ⟨⟨0, 0, 1, 1⟩, ⟨0, 0, 1, 1⟩, []⟩).1.mpr (by decide)

/-! ## `write_vector` (io_utils) and `NumpyTile.read` -/

/-- The non-database branch of `write_vector` (src/mapchete/io_utils.py
lines 912-929) acting on the set of existing files: remove a pre-existing
destination, run the inner dataset write (the external old-API
`write_vector_window`, which may fail after creating the file — modelled
as a function returning the new file set and a failure flag), and on
failure remove the destination again before re-raising. -/
def write_vector_file_branch (out_path : Nat) (fs : List Nat)
    (inner : List Nat → List Nat × Bool) : List Nat × Bool :=
  match inner (if out_path ∈ fs then
      fs.filter (fun p => p != out_path) else fs) with
  | (fs2, true) =>
    (if out_path ∈ fs2 then fs2.filter (fun p => p != out_path) else fs2, true)
  | (fs2, false) => (fs2, false)

/-- C9: if the dataset-level write phase fails, the destination file is
removed before the error propagates, so after a failed write no file
exists at the destination path. -/
theorem write_vector_cleanup_on_failure (out_path : Nat) (fs : List Nat)
    (inner : List Nat → List Nat × Bool)
    (h : (write_vector_file_branch out_path fs inner).2 = true) :
    out_path ∉ (write_vector_file_branch out_path fs inner).1 := by
  unfold write_vector_file_branch at h ⊢
  rcases hinner : inner (if out_path ∈ fs then
      fs.filter (fun p => p != out_path) else fs) with ⟨fs2, b⟩
  rw [hinner] at h
  cases b with
  | false => exact Bool.noConfusion h
  | true =>
    show out_path ∉
      (if out_path ∈ fs2 then fs2.filter (fun p => p != out_path) else fs2)
    by_cases hmem : out_path ∈ fs2
    · rw [if_pos hmem]
      exact not_mem_filter_ne_self out_path fs2
    · rw [if_neg hmem]
      exact hmem

/-- Witness for C9: an inner write that creates the file and then fails
leaves no file at the destination. -/
theorem write_vector_cleanup_on_failure_witness :
    7 ∉ (write_vector_file_branch 7 [] (fun fs => (7 :: fs, true))).1 :=
  write_vector_cleanup_on_failure 7 [] (fun fs => (7 :: fs, true)) rfl

/-- The value returned by `NumpyTile.read`: either the stored arrays or a
bare string. -/
inductive NumpyRead (α : Type) where
  | arr (a : α)
  | msg (s : String)
deriving Repr

/-- Embeds `NumpyTile.read` (src/mapchete/io_utils.py lines 518-539): look up the
process tile matching the destination and read its stored arrays if it
exists; otherwise return the literal string `"herbert"`.  (The computed
`band_indexes` are dead code — neither branch uses them.) -/
def numpy_tile_read {α : Type} (cfg : ProcCfg) (read_numpy : Nat → α) :
    NumpyRead α :=
  if cfg.tileExists cfg.baseTile then
    .arr (read_numpy (cfg.tilePath cfg.baseTile))
  else
    .msg "herbert"

/-- C10: whenever the underlying tile does not exist in storage,
`NumpyTile.read` returns the literal string "herbert" rather than an
array, an empty sequence or an error. -/
theorem numpy_tile_read_herbert {α : Type} (cfg : ProcCfg)
    (read_numpy : Nat → α) (h : cfg.tileExists cfg.baseTile = false) :
    numpy_tile_read cfg read_numpy = .msg "herbert" := by
  unfold numpy_tile_read
  rw [h]
  simp

/-- Witness for C10: a concrete composite whose base tile is missing. -/
theorem numpy_tile_read_herbert_witness :
    numpy_tile_read ⟨[], fun _ => false, fun p => p, 0, 0⟩ (fun p => p)
      = .msg "herbert" :=
  numpy_tile_read_herbert ⟨[], fun _ => false, fun p => p, 0, 0⟩
    (fun p => p) rfl

end Mapchete
